import Mathlib

/-!
# Oculus sonar node: run-mode control and configuration synchronisation

A shallow embedding of `oculus_ros2/src/oculus_sonar_node.cpp`.

Conventions of the embedding.

* `double` values are the rationals (every finite double is one); the code only
  copies and compares them, it never does arithmetic on them.  NaN and the
  infinities are outside the model.
* `uint8_t` values are naturals, every store into a `uint8_t` is reduced
  modulo 256.  `int` and `int64_t` values are integers.
* A member function of the node becomes a function from the node state to the
  new node state.  A C++ exception (a parameter read with the wrong type) is
  the result `none`.
* Calls into the collaborators (sonar driver, ROS parameter store) and the
  writes to `is_running_` are appended to the field `log` of the state, in
  program order, so that the order of effects can be stated.
* Message publication and logging have no influence on the state and are left
  out.
-/

namespace OculusSonarNode

/-- The C++ type `double`, restricted to its finite values. -/
abbrev Double := ℚ

/-! ## Constants of the node header and of the driver -/

/-- Modelled from the spec: the flag constants are declared in the node header,
which is not among the sources.  The values follow the bit table written in
the comment of `updateLocalParameters`: bit 0 range in meters. -/
def flagByte.RANGE_AS_METERS : Nat := 0x01

/-- Modelled from the spec: bit 2 of the flag byte, send gains. -/
def flagByte.SEND_GAINS : Nat := 0x04

/-- Modelled from the spec: bit 3 of the flag byte, simple return message. -/
def flagByte.SIMPLE_PING : Nat := 0x08

/-- Modelled from the spec: bit 4 of the flag byte, gain assist. -/
def flagByte.GAIN_ASSIST : Nat := 0x10

/-- Modelled from the spec: bit 6 of the flag byte, 512 beams. -/
def flagByte.NBEAMS : Nat := 0x40

/-- Modelled from the spec: the reserved ping-rate code of the driver that
means do not ping (the standby sentinel); the driver header is not among the
sources. -/
def pingRateStandby : Nat := 5

/-- Modelled from the spec: name of the control field frequency_mode. -/
def params.FREQUENCY_MODE.name : String := "frequency_mode"

/-- Modelled from the spec: highest frequency mode (1 low, 2 high). -/
def params.FREQUENCY_MODE.max : Int := 2

/-- Modelled from the spec: name of the control field ping_rate. -/
def params.PING_RATE.name : String := "ping_rate"

/-- Modelled from the spec: name of the control field nbeams. -/
def params.NBEAMS.name : String := "nbeams"

/-- Modelled from the spec: name of the control field gain_assist. -/
def params.GAIN_ASSIT.name : String := "gain_assist"

/-- Modelled from the spec: name of the control field range. -/
def params.RANGE.name : String := "range"

/-- Modelled from the spec: name of the control field gamma_correction. -/
def params.GAMMA_CORRECTION.name : String := "gamma_correction"

/-- Modelled from the spec: name of the control field gain_percent. -/
def params.GAIN_PERCENT.name : String := "gain_percent"

/-- Modelled from the spec: name of the control field sound_speed. -/
def params.SOUND_SPEED.name : String := "sound_speed"

/-- Modelled from the spec: name of the control field use_salinity. -/
def params.USE_SALINITY.name : String := "use_salinity"

/-- Modelled from the spec: name of the control field salinity. -/
def params.SALINITY.name : String := "salinity"

/-- Modelled from the spec: the member `dynamic_parameters_names_` of the node
header, the names of the control fields that are backed by the device. -/
def dynamic_parameters_names_ : List String :=
  [params.FREQUENCY_MODE.name, params.PING_RATE.name, params.NBEAMS.name,
   params.GAIN_ASSIT.name, params.RANGE.name, params.GAMMA_CORRECTION.name,
   params.GAIN_PERCENT.name, params.SOUND_SPEED.name, params.USE_SALINITY.name,
   params.SALINITY.name]

/-! ## Data model -/

/-- The value carried by a `rclcpp::Parameter`. -/
inductive ParameterValue where
  | bool (b : Bool)
  | integer (i : Int)
  | double (d : Double)
  | string (s : String)
  deriving DecidableEq, Repr

/-- A `rclcpp::Parameter`: a name and a typed value. -/
structure Parameter where
  name : String
  value : ParameterValue
  deriving DecidableEq, Repr

/-- The accessor `as_bool()`; it throws on a value of another type. -/
def Parameter.as_bool (p : Parameter) : Option Bool :=
  match p.value with
  | .bool b => some b
  | _ => none

/-- The accessor `as_int()`; it throws on a value of another type. -/
def Parameter.as_int (p : Parameter) : Option Int :=
  match p.value with
  | .integer i => some i
  | _ => none

/-- The accessor `as_double()`; it throws on a value of another type. -/
def Parameter.as_double (p : Parameter) : Option Double :=
  match p.value with
  | .double d => some d
  | _ => none

/-- The message `rcl_interfaces::msg::SetParametersResult`. -/
structure SetParametersResult where
  successful : Bool
  reason : String
  deriving DecidableEq, Repr

/-- The driver type `SonarDriver::PingConfig` (the fire message of the device),
without its message header, which the node never reads or writes.  The first
five fields are `uint8_t`, the last four are `double`. -/
structure PingConfig where
  masterMode : Nat
  pingRate : Nat
  networkSpeed : Nat
  gammaCorrection : Nat
  flags : Nat
  range : Double
  gainPercent : Double
  speedOfSound : Double
  salinity : Double
  deriving DecidableEq, Repr

/-- The struct `SonarParameters` of the node header: the mirrored control
parameters.  Its integer fields are `int`; the ROS parameters that feed them
are range-checked against their declaration before the node sees them, so no
narrowing is modelled. -/
structure SonarParameters where
  frequency_mode : Int
  ping_rate : Int
  nbeams : Int
  gain_assist : Bool
  range : Double
  gamma_correction : Int
  gain_percent : Double
  sound_speed : Double
  use_salinity : Bool
  salinity : Double
  deriving DecidableEq, Repr

/-- The part of a `oculus::PingMessage` that `publishPing` reads. -/
structure PingMessage where
  temperature : Double
  master_mode : Nat
  range : Double
  gain_percent : Double
  speed_of_sound_used : Double
  deriving DecidableEq, Repr

/-- The part of a status message that `publishStatus` reads. -/
structure OculusStatusMsg where
  temperature6 : Double
  pressure : Double
  deriving DecidableEq, Repr

/-- One observable effect of the node, in program order. -/
inductive Event where
  | resume
  | standby
  | request_ping_config (newConfig : PingConfig)
  | set_parameter_run (value : Bool)
  | is_running (value : Bool)
  deriving DecidableEq, Repr

/-- The sonar driver as the node sees it: the device answers a requested
configuration with the configuration it accepted. -/
structure SonarDriver where
  request_ping_config : PingConfig → PingConfig

/-- The state of an `OculusSonarNode`, with the part of its environment that
its decisions read: the subscription counts of its two publishers and the ROS
parameter "run". -/
structure Node where
  is_running_ : Bool
  is_overheating_ : Bool
  temperature_warn_limit_ : Double
  temperature_stop_limit_ : Double
  currentSonarParameters_ : SonarParameters
  currentRosParameters_ : SonarParameters
  currentConfig_ : PingConfig
  sonar_driver_ : SonarDriver
  ping_subscription_count : Nat
  image_subscription_count : Nat
  run : Bool
  log : List Event

/-! ## Operations -/

/-- The C library rendering `std::to_string(double)`: fixed notation with six
decimals, the exact value rounded to nearest, ties to even.  It only feeds
the text of a rejection reason. -/
def to_string (d : Double) : String :=
  let scaled : ℚ := |d| * 1000000
  let q : Nat := Int.toNat (Rat.floor scaled)
  let frac : ℚ := scaled - q
  let r : Nat :=
    if 1 / 2 < frac then q + 1
    else if frac < 1 / 2 then q
    else if q % 2 = 0 then q else q + 1
  let digits : String := toString (r % 1000000)
  (if d < 0 then "-" else "") ++ toString (r / 1000000) ++ "."
    ++ String.mk (List.replicate (6 - digits.length) '0') ++ digits

/-- The member `get_subscription_count`: the sum of the subscription counts of
the ping publisher and of the image publisher, as an `int`. -/
def get_subscription_count (s : Node) : Int :=
  ((s.ping_subscription_count + s.image_subscription_count : Nat) : Int)

/-- The member `checkOverheating`: equality with the stop limit counts as
overheating. -/
def checkOverheating (s : Node) (new_temperature : Double) : Node :=
  { s with is_overheating_ := decide (new_temperature ≥ s.temperature_stop_limit_) }

/-- The statement `flags &= ~mask` on a `uint8_t`. -/
def uint8_and_not (flags mask : Nat) : Nat :=
  (flags &&& (255 ^^^ mask)) % 256

/-- The member `setMinimalFlags`, as a function of the flag byte it is given;
it reads the mirrored frequency mode of the node. -/
def setMinimalFlags (s : Node) (flags : Nat) : Nat :=
  let flags := (flags |||
    (flagByte.RANGE_AS_METERS ||| flagByte.SEND_GAINS ||| flagByte.SIMPLE_PING)) % 256
  let flags :=
    if s.currentSonarParameters_.frequency_mode = params.FREQUENCY_MODE.max then
      uint8_and_not flags flagByte.GAIN_ASSIST
    else flags
  let flags := uint8_and_not flags 0x02
  uint8_and_not flags 0x80

/-- The member `checkMinimalFlags`: it only logs; the result is the list of the
errors it logs. -/
def checkMinimalFlags (flags : Nat) : List String :=
  (if flags &&& flagByte.RANGE_AS_METERS = 0 then
    ["Range is attepreted as percent while ros driver assume range is interpreted as meters."]
   else [])
  ++ (if flags &&& flagByte.SEND_GAINS = 0 then
    ["The sonar don\x27t send gain while ros driver assume gains are sended. Data is incomplete."]
   else [])
  ++ (if flags &&& flagByte.SIMPLE_PING = 0 then
    ["The sonar don\x27t use simple ping message while ros driver assume simple ping are used."]
   else [])

/-- One turn of the loop of `updateLocalParameters(parameters, new_parameters)`:
the field named by the parameter takes its value; the name "run" and unknown
names change nothing. -/
def updateLocalParameter (parameters : SonarParameters) (new_param : Parameter) :
    Option SonarParameters :=
  if new_param.name = params.FREQUENCY_MODE.name then
    new_param.as_int.map fun v => { parameters with frequency_mode := v }
  else if new_param.name = params.PING_RATE.name then
    new_param.as_int.map fun v => { parameters with ping_rate := v }
  else if new_param.name = params.NBEAMS.name then
    new_param.as_int.map fun v => { parameters with nbeams := v }
  else if new_param.name = params.GAIN_ASSIT.name then
    new_param.as_bool.map fun v => { parameters with gain_assist := v }
  else if new_param.name = params.RANGE.name then
    new_param.as_double.map fun v => { parameters with range := v }
  else if new_param.name = params.GAMMA_CORRECTION.name then
    new_param.as_int.map fun v => { parameters with gamma_correction := v }
  else if new_param.name = params.GAIN_PERCENT.name then
    new_param.as_double.map fun v => { parameters with gain_percent := v }
  else if new_param.name = params.SOUND_SPEED.name then
    new_param.as_double.map fun v => { parameters with sound_speed := v }
  else if new_param.name = params.USE_SALINITY.name then
    new_param.as_bool.map fun v => { parameters with use_salinity := v }
  else if new_param.name = params.SALINITY.name then
    new_param.as_double.map fun v => { parameters with salinity := v }
  else
    some parameters

/-- The member `updateLocalParameters(SonarParameters&, vector<Parameter>)`. -/
def updateLocalParameters (parameters : SonarParameters) :
    List Parameter → Option SonarParameters
  | [] => some parameters
  | new_param :: rest =>
    (updateLocalParameter parameters new_param).bind fun p => updateLocalParameters p rest

/-- The list `new_parameters` that `updateLocalParameters(SonarParameters&,
PingConfig)` builds from a feedback.  There is no entry for use_salinity. -/
def feedbackParameters (feedback : PingConfig) : List Parameter :=
  [ ⟨params.FREQUENCY_MODE.name, .integer feedback.masterMode⟩,
    ⟨params.PING_RATE.name, .integer feedback.pingRate⟩,
    ⟨params.NBEAMS.name, .integer (feedback.flags &&& flagByte.NBEAMS : Nat)⟩,
    ⟨params.GAIN_ASSIT.name, .bool (decide (feedback.flags &&& flagByte.GAIN_ASSIST ≠ 0))⟩,
    ⟨params.RANGE.name, .double feedback.range⟩,
    ⟨params.GAMMA_CORRECTION.name, .integer feedback.gammaCorrection⟩,
    ⟨params.GAIN_PERCENT.name, .double feedback.gainPercent⟩,
    ⟨params.SOUND_SPEED.name, .double feedback.speedOfSound⟩,
    ⟨params.SALINITY.name, .double feedback.salinity⟩ ]

/-- The member `updateLocalParameters(SonarParameters&, PingConfig)`:
reconciliation of a mirror from a device feedback. -/
def updateLocalParametersFromFeedback (parameters : SonarParameters) (feedback : PingConfig) :
    Option SonarParameters :=
  updateLocalParameters parameters (feedbackParameters feedback)

/-- Modelled from the spec: the template `handleFeedbackForParam` is declared
in the node header, which is not among the sources.  It compares a requested
field with the corresponding feedback field; a difference on the field that
the request names marks the result as rejected, a difference on another field
is only reported in the reason. -/
def handleFeedbackForParam {T : Type} [DecidableEq T] (result : SetParametersResult)
    (param : Parameter) (old_val new_val : T) (param_name : String) : SetParametersResult :=
  if old_val ≠ new_val then
    if param.name = param_name then
      { successful := false,
        reason := result.reason ++ "Could not update " ++ param_name ++ ".\n" }
    else
      { result with reason := result.reason ++ param_name ++ " change.\n" }
  else result

/-- The local `newConfig` of `sendParamToSonar` at the call of
`request_ping_config`: a copy of `currentConfig_` with the one change that the
parameter names, stamped by `setMinimalFlags`.  A store into a `uint8_t` field
keeps the low eight bits of the requested integer. -/
def sendParamToSonar.newConfig (s : Node) (param : Parameter) : Option PingConfig :=
  let newConfig := s.currentConfig_
  let changed : Option PingConfig :=
    if param.name = params.FREQUENCY_MODE.name then
      param.as_int.map fun v => { newConfig with masterMode := Int.toNat (v % 256) }
    else if param.name = params.PING_RATE.name then
      param.as_int.map fun v => { newConfig with pingRate := Int.toNat (v % 256) }
    else if param.name = params.NBEAMS.name then
      param.as_int.map fun v =>
        if v = 0 then { newConfig with flags := uint8_and_not newConfig.flags flagByte.NBEAMS }
        else { newConfig with flags := (newConfig.flags ||| flagByte.NBEAMS) % 256 }
    else if param.name = params.GAIN_ASSIT.name then
      param.as_bool.map fun b =>
        if b then { newConfig with flags := (newConfig.flags ||| flagByte.GAIN_ASSIST) % 256 }
        else { newConfig with flags := uint8_and_not newConfig.flags flagByte.GAIN_ASSIST }
    else if param.name = params.RANGE.name then
      param.as_double.map fun v => { newConfig with range := v }
    else if param.name = params.GAMMA_CORRECTION.name then
      param.as_int.map fun v => { newConfig with gammaCorrection := Int.toNat (v % 256) }
    else if param.name = params.GAIN_PERCENT.name then
      param.as_double.map fun v => { newConfig with gainPercent := v }
    else if param.name = params.USE_SALINITY.name then
      param.as_bool.map fun b => if b then { newConfig with speedOfSound := 0 } else newConfig
    else if param.name = params.SOUND_SPEED.name then
      param.as_double.map fun v =>
        if s.currentRosParameters_.use_salinity = false then
          if 1400 ≤ v ∧ v ≤ 1600 then { newConfig with speedOfSound := v } else newConfig
        else newConfig
    else if param.name = params.SALINITY.name then
      param.as_double.map fun v => { newConfig with salinity := v }
    else
      some newConfig
  changed.map fun c => { c with flags := setMinimalFlags s c.flags }

/-- The eight calls of `handleFeedbackForParam` at the end of `sendParamToSonar`,
on the result object that the function owns.  There is no call for ping_rate
and none for use_salinity. -/
def sendParamToSonar.report (result : SetParametersResult) (param : Parameter)
    (newConfig feedback : PingConfig) : SetParametersResult :=
  let result := handleFeedbackForParam result param
    (newConfig.masterMode : Double) (feedback.masterMode : Double) params.FREQUENCY_MODE.name
  let result := handleFeedbackForParam result param
    (decide (newConfig.flags &&& flagByte.GAIN_ASSIST ≠ 0))
    (decide (feedback.flags &&& flagByte.GAIN_ASSIST ≠ 0)) params.GAIN_ASSIT.name
  let result := handleFeedbackForParam result param
    (if newConfig.flags &&& flagByte.NBEAMS ≠ 0 then (1 : Int) else 0)
    (if feedback.flags &&& flagByte.NBEAMS ≠ 0 then (1 : Int) else 0) params.NBEAMS.name
  let result := handleFeedbackForParam result param
    newConfig.range feedback.range params.RANGE.name
  let result := handleFeedbackForParam result param
    (newConfig.gammaCorrection : Int) (feedback.gammaCorrection : Int)
    params.GAMMA_CORRECTION.name
  let result := handleFeedbackForParam result param
    newConfig.gainPercent feedback.gainPercent params.GAIN_PERCENT.name
  let result := handleFeedbackForParam result param
    newConfig.speedOfSound feedback.speedOfSound params.SOUND_SPEED.name
  handleFeedbackForParam result param newConfig.salinity feedback.salinity params.SALINITY.name

/-- The member `sendParamToSonar(param, result)`.  The C++ function returns
nothing and takes `result` by value: the second component is the final value
of the copy that the function owns, which its caller never sees. -/
def sendParamToSonar (s : Node) (param : Parameter) (result : SetParametersResult) :
    Option (Node × SetParametersResult) :=
  (sendParamToSonar.newConfig s param).bind fun newConfig =>
    let feedback := s.sonar_driver_.request_ping_config newConfig
    let s1 : Node :=
      { s with currentConfig_ := feedback, log := s.log ++ [Event.request_ping_config newConfig] }
    (updateLocalParametersFromFeedback s1.currentSonarParameters_ feedback).map fun p =>
      let s2 : Node := { s1 with currentSonarParameters_ := p }
      let result := sendParamToSonar.report result param newConfig feedback
      let s3 : Node :=
        if feedback.pingRate = pingRateStandby ∧ s2.is_running_ = true then
          { s2 with is_running_ := false, log := s2.log ++ [Event.is_running false] }
        else s2
      (s3, result)

/-- The reason of a refused run request: it lists every condition that fails. -/
def setConfigCallback.runReason (s : Node) : String :=
  "The condition to go in run mode are not meeted."
  ++ (if get_subscription_count s = 0 then
        " There is no subscriber nor to ping topic neither to image topic." else "")
  ++ (if s.is_overheating_ = true then
        " Temperature of sonar is to high."
        ++ " Make sur the sonar is underwatter. Security limit set at "
        ++ to_string s.temperature_stop_limit_ ++ "°C" else "")
  ++ (if s.currentSonarParameters_.ping_rate = pingRateStandby then
        " ping_rate mode is seted to " ++ toString pingRateStandby ++ "." else "")

/-- The body of the loop of `setConfigCallback` for one parameter.  The third
component tells whether the body left the function through `return result`. -/
def setConfigCallback.body (s : Node) (result : SetParametersResult) (param : Parameter) :
    Option (Node × SetParametersResult × Bool) :=
  if param.name = "run" then
    (if s.is_running_ = false then some true else param.as_bool).bind fun guard =>
      if guard = true ∧ (get_subscription_count s = 0 ∨ s.is_overheating_ = true
          ∨ s.currentSonarParameters_.ping_rate = pingRateStandby) then
        some (s, { successful := false, reason := setConfigCallback.runReason s }, true)
      else
        param.as_bool.map fun b =>
          ({ s with is_running_ := b, log := s.log ++ [Event.is_running b] }, result, false)
  else if param.name ∈ dynamic_parameters_names_ then
    if s.currentSonarParameters_.gain_assist = true
        ∧ s.currentSonarParameters_.frequency_mode ≠ 0
        ∧ param.name = params.FREQUENCY_MODE.name then
      some (s, { result with reason :=
        "You must set gain_assist to false before changing frequency TODO(to fix)." }, true)
    else
      (sendParamToSonar s param result).map fun r => (r.1, result, false)
  else
    some (s, result, false)

/-- The loop `for (param : parameters)` of `setConfigCallback`. -/
def setConfigCallback.loop (s : Node) (result : SetParametersResult) :
    List Parameter → Option (Node × SetParametersResult × Bool)
  | [] => some (s, result, false)
  | param :: rest =>
    (setConfigCallback.body s result param).bind fun r =>
      if r.2.2 = true then some r else setConfigCallback.loop r.1 r.2.1 rest

/-- The member `setConfigCallback`: the handler of a request to set parameters.
It returns the new node state and the result given to the requester. -/
def setConfigCallback (s : Node) (parameters : List Parameter) :
    Option (Node × SetParametersResult) :=
  if parameters.length ≠ 1 then
    some (s, { successful := false, reason := "Parameters should be set one by one" })
  else
    (setConfigCallback.loop s { successful := true, reason := "" } parameters).bind fun r =>
      if r.2.2 = true then some (r.1, r.2.1)
      else if r.2.1.successful = true then
        (updateLocalParameters r.1.currentRosParameters_ parameters).map fun p =>
          ({ r.1 with currentRosParameters_ := p }, r.2.1)
      else some (r.1, r.2.1)

/-- The call `this->set_parameter(rclcpp::Parameter("run", value))`: the ROS
parameter layer runs the registered callback `setConfigCallback` on the request
and stores the value only if the callback accepts it. -/
def set_parameter_run (s : Node) (value : Bool) : Node :=
  match setConfigCallback s [⟨"run", .bool value⟩] with
  | some (s', result) =>
    if result.successful = true then
      { s' with run := value, log := s'.log ++ [Event.set_parameter_run value] }
    else s'
  | none => s

/-- The member `enableRunMode`. -/
def enableRunMode (s : Node) : Node :=
  let s1 : Node := { s with log := s.log ++ [Event.resume] }
  let s2 := set_parameter_run s1 true
  { s2 with is_running_ := true, log := s2.log ++ [Event.is_running true] }

/-- The member `disableRunMode`. -/
def disableRunMode (s : Node) : Node :=
  let s1 : Node := { s with log := s.log ++ [Event.standby] }
  let s2 := set_parameter_run s1 false
  { s2 with is_running_ := false, log := s2.log ++ [Event.is_running false] }

/-- Modelled from the spec: the template `updateRosConfigForParam` is declared
in the node header, which is not among the sources.  `updateRosConfig` applies
it to nine fields (nbeams is not among them); each externally visible field is
reconciled to the mirrored device value. -/
def updateRosConfig (s : Node) : Node :=
  { s with currentRosParameters_ :=
      { s.currentRosParameters_ with
        frequency_mode := s.currentSonarParameters_.frequency_mode
        range := s.currentSonarParameters_.range
        gain_percent := s.currentSonarParameters_.gain_percent
        sound_speed := s.currentSonarParameters_.sound_speed
        ping_rate := s.currentSonarParameters_.ping_rate
        gain_assist := s.currentSonarParameters_.gain_assist
        gamma_correction := s.currentSonarParameters_.gamma_correction
        use_salinity := s.currentSonarParameters_.use_salinity
        salinity := s.currentSonarParameters_.salinity } }

/-- The member `publishStatus`: outside run mode the status temperature feeds
the overheating flag. -/
def publishStatus (s : Node) (status : OculusStatusMsg) : Node :=
  if s.is_running_ = false then checkOverheating s status.temperature6 else s

/-- The member `publishPing`: the handler of one reading of the device.  The
last branch of its chain, the comparison with the warn limit, only logs. -/
def publishPing (s : Node) (ping : PingMessage) : Node :=
  let s := checkOverheating s ping.temperature
  let s :=
    if s.is_running_ = false then disableRunMode s
    else if get_subscription_count s = 0 then disableRunMode s
    else if s.currentSonarParameters_.ping_rate = pingRateStandby then disableRunMode s
    else if s.is_overheating_ = true then disableRunMode s
    else s
  let s : Node :=
    { s with currentSonarParameters_ :=
        { s.currentSonarParameters_ with
          frequency_mode := ping.master_mode
          range := ping.range
          gain_percent := ping.gain_percent
          sound_speed := ping.speed_of_sound_used } }
  updateRosConfig s

/-- The member `handleDummy`: the handler of one keepalive of the device. -/
def handleDummy (s : Node) : Node :=
  if s.is_running_ = true ∧ get_subscription_count s > 0 ∧ s.is_overheating_ = false
      ∧ s.currentSonarParameters_.ping_rate ≠ pingRateStandby then
    enableRunMode s
  else s

/-! ## Concrete states used as test inputs -/

/-- A device configuration: low frequency, normal ping rate, 512 beams, gain
assist on, range 10 m, sound speed 1500 m/s. -/
def sampleConfig : PingConfig :=
  { masterMode := 1, pingRate := 0, networkSpeed := 255, gammaCorrection := 127, flags := 0x5D,
    range := 10, gainPercent := 50, speedOfSound := 1500, salinity := 35 }

/-- The control parameters that mirror `sampleConfig`, with gain assist off. -/
def sampleParameters : SonarParameters :=
  { frequency_mode := 1, ping_rate := 0, nbeams := 64, gain_assist := false, range := 10,
    gamma_correction := 127, gain_percent := 50, sound_speed := 1500, use_salinity := false,
    salinity := 35 }

/-- A device that accepts every requested configuration as it is. -/
def echoDriver : SonarDriver := ⟨fun newConfig => newConfig⟩

/-- A device that answers every request with a range of 5 m. -/
def shortRangeDriver : SonarDriver := ⟨fun newConfig => { newConfig with range := 5 }⟩

/-- A node in standby whose three run conditions hold: one subscriber, not
overheating, ping rate different from the standby code. -/
def standbyNode : Node :=
  { is_running_ := false, is_overheating_ := false, temperature_warn_limit_ := 30,
    temperature_stop_limit_ := 35, currentSonarParameters_ := sampleParameters,
    currentRosParameters_ := sampleParameters, currentConfig_ := sampleConfig,
    sonar_driver_ := echoDriver, ping_subscription_count := 1, image_subscription_count := 0,
    run := false, log := [] }

/-- The node `standbyNode` after an accepted request run = true. -/
def activeNode : Node := { standbyNode with is_running_ := true, run := true }

/-- The node `standbyNode` with gain assist enabled in the mirrored device
parameters. -/
def gainAssistNode : Node :=
  { standbyNode with currentSonarParameters_ := { sampleParameters with gain_assist := true } }

/-- The node `standbyNode` in front of a device that answers with 5 m. -/
def shortRangeNode : Node := { standbyNode with sonar_driver_ := shortRangeDriver }

/-- A reading at 36 degrees, above the stop limit 35 of the sample nodes. -/
def hotPing : PingMessage :=
  { temperature := 36, master_mode := 1, range := 10, gain_percent := 50,
    speed_of_sound_used := 1500 }

/-- The node `standbyNode` without any subscriber. -/
def idleNode : Node := { standbyNode with ping_subscription_count := 0 }

/-- A device that answers every request with the standby ping rate. -/
def standbyRateDriver : SonarDriver :=
  ⟨fun newConfig => { newConfig with pingRate := pingRateStandby }⟩

/-- The node `activeNode` in front of a device that answers with the standby
ping rate. -/
def standbyRateNode : Node := { activeNode with sonar_driver_ := standbyRateDriver }

/-- A reading at 20 degrees, below the limits of the sample nodes. -/
def coolPing : PingMessage :=
  { temperature := 20, master_mode := 1, range := 10, gain_percent := 50,
    speed_of_sound_used := 1500 }

/-! ## Auxiliary lemmas -/

theorem get_subscription_count_pos_iff (s : Node) :
    get_subscription_count s > 0 ↔ ¬ get_subscription_count s = 0 := by
  unfold get_subscription_count
  omega

theorem updateLocalParameters_run (p : SonarParameters) (v : ParameterValue) :
    updateLocalParameters p [⟨"run", v⟩] = some p := by
  simp [updateLocalParameters, updateLocalParameter, params.FREQUENCY_MODE.name,
    params.PING_RATE.name, params.NBEAMS.name, params.GAIN_ASSIT.name, params.RANGE.name,
    params.GAMMA_CORRECTION.name, params.GAIN_PERCENT.name, params.SOUND_SPEED.name,
    params.USE_SALINITY.name, params.SALINITY.name]

/-- The handler on a single request for "run": it is refused when the node is
not running or the request is run = true, and one of the three run conditions
fails; otherwise `is_running_` takes the requested value. -/
theorem setConfigCallback_run (s : Node) (b : Bool) :
    setConfigCallback s [⟨"run", .bool b⟩] =
      if (s.is_running_ = false ∨ b = true) ∧ (get_subscription_count s = 0
          ∨ s.is_overheating_ = true ∨ s.currentSonarParameters_.ping_rate = pingRateStandby)
      then some (s, { successful := false, reason := setConfigCallback.runReason s })
      else some ({ s with is_running_ := b, log := s.log ++ [Event.is_running b] },
        { successful := true, reason := "" }) := by
  cases hr : s.is_running_ <;> cases b <;>
    by_cases hc : (get_subscription_count s = 0
          ∨ s.is_overheating_ = true ∨ s.currentSonarParameters_.ping_rate = pingRateStandby) <;>
    simp [setConfigCallback, setConfigCallback.loop, setConfigCallback.body, Parameter.as_bool,
      updateLocalParameters_run, hr, hc]

/-- The state after `disableRunMode` on a running node: the parameter layer
accepts run = false. -/
theorem disableRunMode_of_running (s : Node) (h : s.is_running_ = true) :
    disableRunMode s =
      { s with is_running_ := false, run := false,
               log := s.log ++ [Event.standby, Event.is_running false,
                 Event.set_parameter_run false, Event.is_running false] } := by
  simp [disableRunMode, set_parameter_run, setConfigCallback_run, h]

/-! ## Run-mode controller -/

/-- C1: a request run = true is accepted exactly when there is a subscriber,
the node is not overheating and the mirrored ping rate is not the standby
code; an accepted request sets `is_running_`, a refused one leaves the whole
state as it was. -/
theorem run_true_accepted_iff (s : Node) :
    ∃ s' result, setConfigCallback s [⟨"run", .bool true⟩] = some (s', result) ∧
      (result.successful = true ↔
        (get_subscription_count s > 0 ∧ s.is_overheating_ = false ∧
          s.currentSonarParameters_.ping_rate ≠ pingRateStandby)) ∧
      s'.is_running_ = (if result.successful = true then true else s.is_running_) ∧
      (if result.successful = true then s'.is_running_ = true else s' = s) := by
  rw [setConfigCallback_run, get_subscription_count_pos_iff]
  by_cases hc : (get_subscription_count s = 0
      ∨ s.is_overheating_ = true ∨ s.currentSonarParameters_.ping_rate = pingRateStandby)
  · rw [if_pos ⟨Or.inr rfl, hc⟩]
    refine ⟨s, _, rfl, ?_, by simp, by simp⟩
    simp only [Bool.false_eq_true, false_iff]
    rcases hc with h | h | h
    · simp [h]
    · simp [h]
    · simp [h]
  · rw [if_neg (fun h => hc h.2)]
    refine ⟨_, _, rfl, ?_, by simp, by simp⟩
    simp only [not_or] at hc
    simp only [true_iff]
    exact ⟨hc.1, by simpa using hc.2.1, hc.2.2⟩

/-- C2, as the code has it: a keepalive acts only on a node whose
`is_running_` is already true and whose three run conditions hold.  It then
calls `resume()` once, after that the ROS parameter "run" is set to true, and
`is_running_` is true afterwards; nothing else in the state changes.  In every
other state, in particular whenever `is_running_` is false, whatever the run
conditions, the keepalive leaves the whole state as it was. -/
theorem handleDummy_resumes_only_when_running (s : Node) :
    handleDummy s =
      (if s.is_running_ = true ∧ get_subscription_count s > 0 ∧ s.is_overheating_ = false
          ∧ s.currentSonarParameters_.ping_rate ≠ pingRateStandby then
        { s with
          is_running_ := true
          run := true
          log := s.log ++ [Event.resume, Event.is_running true, Event.set_parameter_run true,
            Event.is_running true] }
       else s) ∧
    (s.is_running_ = false → handleDummy s = s) := by
  constructor
  · by_cases hg : s.is_running_ = true ∧ get_subscription_count s > 0
        ∧ s.is_overheating_ = false ∧ s.currentSonarParameters_.ping_rate ≠ pingRateStandby
    · obtain ⟨hr, hsub, hheat, hrate⟩ := hg
      have hsub' := (get_subscription_count_pos_iff s).1 hsub
      have hcb : setConfigCallback { s with log := s.log ++ [Event.resume] }
          [⟨"run", .bool true⟩]
          = some ({ s with is_running_ := true,
                           log := s.log ++ [Event.resume] ++ [Event.is_running true] },
              { successful := true, reason := "" }) := by
        rw [setConfigCallback_run, if_neg]
        rintro ⟨-, h | h | h⟩
        · exact hsub' h
        · exact absurd (hheat.symm.trans h) (by decide)
        · exact hrate h
      have hd : handleDummy s = enableRunMode s := by
        unfold handleDummy
        rw [if_pos ⟨hr, hsub, hheat, hrate⟩]
      rw [hd, if_pos ⟨hr, hsub, hheat, hrate⟩]
      simp [enableRunMode, set_parameter_run, hcb]
    · rw [if_neg hg]
      unfold handleDummy
      rw [if_neg hg]
  · intro hr
    unfold handleDummy
    rw [if_neg]
    rintro ⟨h, -⟩
    exact absurd (hr.symm.trans h) (by decide)

/-- C2, witness: the keepalive on `activeNode`, which is running with its run
conditions, and on `idleNode`, which is in standby without subscriber. -/
theorem handleDummy_resumes_only_when_running_witness :
    handleDummy activeNode =
      { activeNode with
        is_running_ := true
        run := true
        log := activeNode.log ++ [Event.resume, Event.is_running true,
          Event.set_parameter_run true, Event.is_running true] } ∧
    handleDummy idleNode = idleNode :=
  ⟨(handleDummy_resumes_only_when_running activeNode).1.trans
      (if_pos ⟨rfl, by decide, rfl, by decide⟩),
    (handleDummy_resumes_only_when_running idleNode).2 rfl⟩

/-- C2, counterexample: `standbyNode` is in standby and its three run
conditions hold, yet the keepalive leaves it in standby and calls nothing. -/
theorem handleDummy_standby_counterexample :
    standbyNode.is_running_ = false ∧ get_subscription_count standbyNode > 0 ∧
    standbyNode.is_overheating_ = false ∧
    standbyNode.currentSonarParameters_.ping_rate ≠ pingRateStandby ∧
    (handleDummy standbyNode).is_running_ = false ∧
    (handleDummy standbyNode).run = false ∧
    (handleDummy standbyNode).log = [] := by
  refine ⟨rfl, by decide, rfl, by decide, rfl, rfl, rfl⟩

/-- C3: a reading handled while `is_running_` is true, with a temperature at
or above the stop limit, or without subscriber, or with the mirrored ping rate
at the standby code, ends with `is_running_` false; `standby()` is called
first, before `is_running_` and the ROS parameter "run" are set to false. -/
theorem publishPing_goes_to_standby (s : Node) (ping : PingMessage)
    (hrun : s.is_running_ = true)
    (h : ping.temperature ≥ s.temperature_stop_limit_ ∨ get_subscription_count s = 0
      ∨ s.currentSonarParameters_.ping_rate = pingRateStandby) :
    (publishPing s ping).is_running_ = false ∧
    (publishPing s ping).run = false ∧
    (publishPing s ping).log = s.log ++ [Event.standby, Event.is_running false,
      Event.set_parameter_run false, Event.is_running false] := by
  have hd := disableRunMode_of_running (checkOverheating s ping.temperature) hrun
  have hc : get_subscription_count (checkOverheating s ping.temperature)
      = get_subscription_count s := rfl
  have e : publishPing s ping = updateRosConfig
      { disableRunMode (checkOverheating s ping.temperature) with
        currentSonarParameters_ :=
          { (disableRunMode (checkOverheating s ping.temperature)).currentSonarParameters_ with
            frequency_mode := ping.master_mode
            range := ping.range
            gain_percent := ping.gain_percent
            sound_speed := ping.speed_of_sound_used } } := by
    unfold publishPing
    simp only [hc]
    have h1 : (checkOverheating s ping.temperature).is_running_ = true := hrun
    have h2 : (checkOverheating s ping.temperature).currentSonarParameters_
        = s.currentSonarParameters_ := rfl
    have h3 : (checkOverheating s ping.temperature).is_overheating_
        = decide (ping.temperature ≥ s.temperature_stop_limit_) := rfl
    simp only [h1, h2, h3]
    rcases h with h | h | h
    · by_cases a : get_subscription_count s = 0 <;>
        by_cases b : s.currentSonarParameters_.ping_rate = ↑pingRateStandby <;> simp [a, b, h]
    · simp [h]
    · by_cases a : get_subscription_count s = 0 <;> simp [a, h]
  rw [e, hd]
  simp [updateRosConfig, checkOverheating]

/-- C3, witness: `activeNode` receives a reading at 36 degrees, its stop limit
is 35 degrees. -/
theorem publishPing_goes_to_standby_witness :
    (publishPing activeNode hotPing).is_running_ = false ∧
    (publishPing activeNode hotPing).run = false ∧
    (publishPing activeNode hotPing).log = [Event.standby, Event.is_running false,
      Event.set_parameter_run false, Event.is_running false] :=
  publishPing_goes_to_standby activeNode hotPing rfl (Or.inl (by decide))

/-! ## Configuration synchroniser -/

theorem lor_mod_256 (a b : Nat) : (a ||| b) % 256 = ((a % 256) ||| b) % 256 := by
  apply Nat.eq_of_testBit_eq
  intro i
  have h : (256 : Nat) = 2 ^ 8 := by norm_num
  rw [h]
  simp only [Nat.testBit_mod_two_pow, Nat.testBit_lor]
  cases decide (i < 8) <;> simp

set_option maxRecDepth 100000 in
/-- Every byte, stamped as `setMinimalFlags` does (with or without the gain
assist step), has bits 0, 2 and 3 set and bits 1 and 7 cleared; the gain
assist step clears bit 4. -/
theorem stamp_bytes : ∀ f, f < 256 → ∀ g : Bool,
    (uint8_and_not (uint8_and_not
      (if g = true then uint8_and_not ((f ||| (1 ||| 4 ||| 8)) % 256) 16
       else (f ||| (1 ||| 4 ||| 8)) % 256) 2) 128) &&& 1 = 1 ∧
    (uint8_and_not (uint8_and_not
      (if g = true then uint8_and_not ((f ||| (1 ||| 4 ||| 8)) % 256) 16
       else (f ||| (1 ||| 4 ||| 8)) % 256) 2) 128) &&& 4 = 4 ∧
    (uint8_and_not (uint8_and_not
      (if g = true then uint8_and_not ((f ||| (1 ||| 4 ||| 8)) % 256) 16
       else (f ||| (1 ||| 4 ||| 8)) % 256) 2) 128) &&& 8 = 8 ∧
    (uint8_and_not (uint8_and_not
      (if g = true then uint8_and_not ((f ||| (1 ||| 4 ||| 8)) % 256) 16
       else (f ||| (1 ||| 4 ||| 8)) % 256) 2) 128) &&& 2 = 0 ∧
    (uint8_and_not (uint8_and_not
      (if g = true then uint8_and_not ((f ||| (1 ||| 4 ||| 8)) % 256) 16
       else (f ||| (1 ||| 4 ||| 8)) % 256) 2) 128) &&& 128 = 0 ∧
    (g = true → (uint8_and_not (uint8_and_not
      (if g = true then uint8_and_not ((f ||| (1 ||| 4 ||| 8)) % 256) 16
       else (f ||| (1 ||| 4 ||| 8)) % 256) 2) 128) &&& 16 = 0) := by
  unfold uint8_and_not
  decide

/-- The byte stamped by `setMinimalFlags`, in terms of the low eight bits of
its input. -/
theorem setMinimalFlags_eq (s : Node) (flags : Nat) :
    setMinimalFlags s flags =
      uint8_and_not (uint8_and_not
        (if decide (s.currentSonarParameters_.frequency_mode = params.FREQUENCY_MODE.max) = true
         then uint8_and_not ((flags % 256 ||| (1 ||| 4 ||| 8)) % 256) 16
         else (flags % 256 ||| (1 ||| 4 ||| 8)) % 256) 2) 128 := by
  unfold setMinimalFlags
  simp only [flagByte.RANGE_AS_METERS, flagByte.SEND_GAINS, flagByte.SIMPLE_PING,
    flagByte.GAIN_ASSIST, decide_eq_true_eq]
  rw [lor_mod_256 flags]

/-- The three minimal flag bits are set in every byte that `setMinimalFlags`
returns. -/
theorem setMinimalFlags_minimal (s : Node) (flags : Nat) :
    setMinimalFlags s flags &&& flagByte.RANGE_AS_METERS = flagByte.RANGE_AS_METERS ∧
    setMinimalFlags s flags &&& flagByte.SEND_GAINS = flagByte.SEND_GAINS ∧
    setMinimalFlags s flags &&& flagByte.SIMPLE_PING = flagByte.SIMPLE_PING := by
  have hb := stamp_bytes (flags % 256) (Nat.mod_lt _ (by norm_num))
    (decide (s.currentSonarParameters_.frequency_mode = params.FREQUENCY_MODE.max))
  rw [← setMinimalFlags_eq] at hb
  exact ⟨hb.1, hb.2.1, hb.2.2.1⟩

/-- The candidate of `sendParamToSonar` carries a byte that `setMinimalFlags`
returned. -/
theorem newConfig_flags_stamped (s : Node) (param : Parameter) (newConfig : PingConfig)
    (h : sendParamToSonar.newConfig s param = some newConfig) :
    ∃ flags, newConfig.flags = setMinimalFlags s flags := by
  unfold sendParamToSonar.newConfig at h
  simp only [Option.map_eq_some'] at h
  obtain ⟨c, -, rfl⟩ := h
  exact ⟨c.flags, rfl⟩

/-- Reconciliation of a mirror from a feedback never fails: every field but
use_salinity is overwritten from the feedback. -/
theorem updateLocalParametersFromFeedback_eq (p : SonarParameters) (feedback : PingConfig) :
    updateLocalParametersFromFeedback p feedback = some
      { frequency_mode := feedback.masterMode
        ping_rate := feedback.pingRate
        nbeams := ((feedback.flags &&& flagByte.NBEAMS : Nat) : Int)
        gain_assist := decide (feedback.flags &&& flagByte.GAIN_ASSIST ≠ 0)
        range := feedback.range
        gamma_correction := feedback.gammaCorrection
        gain_percent := feedback.gainPercent
        sound_speed := feedback.speedOfSound
        use_salinity := p.use_salinity
        salinity := feedback.salinity } := by
  simp [updateLocalParametersFromFeedback, feedbackParameters, updateLocalParameters,
    updateLocalParameter, Parameter.as_int, Parameter.as_bool, Parameter.as_double,
    params.FREQUENCY_MODE.name,
    params.PING_RATE.name, params.NBEAMS.name, params.GAIN_ASSIT.name, params.RANGE.name,
    params.GAMMA_CORRECTION.name, params.GAIN_PERCENT.name, params.SOUND_SPEED.name,
    params.USE_SALINITY.name, params.SALINITY.name]

/-- The state after `sendParamToSonar`, for a request from which a candidate
can be built. -/
theorem sendParamToSonar_eq (s : Node) (param : Parameter) (result : SetParametersResult)
    (newConfig : PingConfig) (h : sendParamToSonar.newConfig s param = some newConfig) :
    sendParamToSonar s param result = some
      ({ s with
          currentConfig_ := s.sonar_driver_.request_ping_config newConfig
          currentSonarParameters_ :=
            { frequency_mode := (s.sonar_driver_.request_ping_config newConfig).masterMode
              ping_rate := (s.sonar_driver_.request_ping_config newConfig).pingRate
              nbeams := (((s.sonar_driver_.request_ping_config newConfig).flags
                &&& flagByte.NBEAMS : Nat) : Int)
              gain_assist := decide ((s.sonar_driver_.request_ping_config newConfig).flags
                &&& flagByte.GAIN_ASSIST ≠ 0)
              range := (s.sonar_driver_.request_ping_config newConfig).range
              gamma_correction := (s.sonar_driver_.request_ping_config newConfig).gammaCorrection
              gain_percent := (s.sonar_driver_.request_ping_config newConfig).gainPercent
              sound_speed := (s.sonar_driver_.request_ping_config newConfig).speedOfSound
              use_salinity := s.currentSonarParameters_.use_salinity
              salinity := (s.sonar_driver_.request_ping_config newConfig).salinity }
          is_running_ :=
            if (s.sonar_driver_.request_ping_config newConfig).pingRate = pingRateStandby
            then false else s.is_running_
          log := s.log ++ Event.request_ping_config newConfig ::
            (if (s.sonar_driver_.request_ping_config newConfig).pingRate = pingRateStandby
                ∧ s.is_running_ = true then [Event.is_running false] else []) },
       sendParamToSonar.report result param newConfig
         (s.sonar_driver_.request_ping_config newConfig)) := by
  unfold sendParamToSonar
  rw [h]
  simp only [Option.some_bind, updateLocalParametersFromFeedback_eq, Option.map_some']
  by_cases hp : (s.sonar_driver_.request_ping_config newConfig).pingRate = pingRateStandby
  · cases hr : s.is_running_ <;> simp [hp, hr]
  · simp [hp]

theorem run_not_dynamic (param : Parameter) (h : param.name ∈ dynamic_parameters_names_) :
    ¬ param.name = "run" := by
  intro e
  rw [e] at h
  revert h
  decide

/-- The handler on a single request for a device-backed parameter that is not
refused beforehand: the exchange of `sendParamToSonar` takes place, the result
is the one initialised by the handler, and the requested value is written to
`currentRosParameters_`. -/
theorem setConfigCallback_dynamic (s : Node) (param : Parameter) (newConfig : PingConfig)
    (p : SonarParameters)
    (hname : param.name ∈ dynamic_parameters_names_)
    (hnot : ¬ (s.currentSonarParameters_.gain_assist = true
        ∧ s.currentSonarParameters_.frequency_mode ≠ 0
        ∧ param.name = params.FREQUENCY_MODE.name))
    (h : sendParamToSonar.newConfig s param = some newConfig)
    (hu : updateLocalParameters s.currentRosParameters_ [param] = some p) :
    ∃ s', sendParamToSonar s param { successful := true, reason := "" }
        = some (s', sendParamToSonar.report { successful := true, reason := "" } param newConfig
            (s.sonar_driver_.request_ping_config newConfig)) ∧
      s'.currentRosParameters_ = s.currentRosParameters_ ∧
      s'.currentConfig_ = s.sonar_driver_.request_ping_config newConfig ∧
      s'.log = s.log ++ Event.request_ping_config newConfig ::
        (if (s.sonar_driver_.request_ping_config newConfig).pingRate = pingRateStandby
            ∧ s.is_running_ = true then [Event.is_running false] else []) ∧
      setConfigCallback s [param]
        = some ({ s' with currentRosParameters_ := p }, { successful := true, reason := "" }) := by
  have hs := sendParamToSonar_eq s param { successful := true, reason := "" } newConfig h
  refine ⟨_, hs, rfl, rfl, rfl, ?_⟩
  unfold setConfigCallback setConfigCallback.loop setConfigCallback.loop setConfigCallback.body
  rw [if_neg (run_not_dynamic param hname), if_pos hname, if_neg hnot, hs]
  simp [hu]

/-- C4: the candidate sent to the driver by `sendParamToSonar` has the bits
RANGE_AS_METERS, SEND_GAINS and SIMPLE_PING set, whatever the request and the
current configuration; and `setMinimalFlags` sets them in every byte. -/
theorem candidate_has_minimal_flags (s : Node) (param : Parameter)
    (result : SetParametersResult) (newConfig : PingConfig)
    (h : sendParamToSonar.newConfig s param = some newConfig) :
    (∃ r tail, sendParamToSonar s param result = some r ∧
      r.1.log = s.log ++ Event.request_ping_config newConfig :: tail ∧
      ∀ c, Event.request_ping_config c ∉ tail) ∧
    newConfig.flags &&& flagByte.RANGE_AS_METERS = flagByte.RANGE_AS_METERS ∧
    newConfig.flags &&& flagByte.SEND_GAINS = flagByte.SEND_GAINS ∧
    newConfig.flags &&& flagByte.SIMPLE_PING = flagByte.SIMPLE_PING ∧
    checkMinimalFlags newConfig.flags = [] ∧
    ∀ flags : Nat,
      setMinimalFlags s flags &&& flagByte.RANGE_AS_METERS = flagByte.RANGE_AS_METERS ∧
      setMinimalFlags s flags &&& flagByte.SEND_GAINS = flagByte.SEND_GAINS ∧
      setMinimalFlags s flags &&& flagByte.SIMPLE_PING = flagByte.SIMPLE_PING := by
  obtain ⟨flags, hf⟩ := newConfig_flags_stamped s param newConfig h
  have hm := setMinimalFlags_minimal s flags
  rw [← hf] at hm
  refine ⟨⟨_, _, sendParamToSonar_eq s param result newConfig h, rfl, ?_⟩,
    hm.1, hm.2.1, hm.2.2, ?_, setMinimalFlags_minimal s⟩
  · intro c
    split <;> simp
  · unfold checkMinimalFlags
    rw [hm.1, hm.2.1, hm.2.2]
    simp [flagByte.RANGE_AS_METERS, flagByte.SEND_GAINS, flagByte.SIMPLE_PING]

/-- C4, witness: a request range = 12 on `standbyNode`. -/
theorem candidate_has_minimal_flags_witness :
    ∃ newConfig, sendParamToSonar.newConfig standbyNode ⟨"range", .double 12⟩ = some newConfig ∧
      newConfig.flags &&& flagByte.RANGE_AS_METERS = flagByte.RANGE_AS_METERS ∧
      newConfig.flags &&& flagByte.SEND_GAINS = flagByte.SEND_GAINS ∧
      newConfig.flags &&& flagByte.SIMPLE_PING = flagByte.SIMPLE_PING :=
  ⟨{ sampleConfig with range := 12 }, by decide,
    (candidate_has_minimal_flags standbyNode ⟨"range", .double 12⟩
      { successful := true, reason := "" } { sampleConfig with range := 12 } (by decide)).2.1,
    (candidate_has_minimal_flags standbyNode ⟨"range", .double 12⟩
      { successful := true, reason := "" } { sampleConfig with range := 12 } (by decide)).2.2.1,
    (candidate_has_minimal_flags standbyNode ⟨"range", .double 12⟩
      { successful := true, reason := "" } { sampleConfig with range := 12 } (by decide)).2.2.2.1⟩

/-- C5: a request that does not hold exactly one parameter is refused with the
reason "Parameters should be set one by one"; the state, and with it the log
of driver calls, `currentConfig_`, both mirrors and `is_running_`, is as
before. -/
theorem batch_rejected (s : Node) (parameters : List Parameter)
    (h : parameters.length ≠ 1) :
    setConfigCallback s parameters
      = some (s, { successful := false, reason := "Parameters should be set one by one" }) := by
  unfold setConfigCallback
  rw [if_pos h]

/-- C5, witness: a request with two parameters, and the empty request. -/
theorem batch_rejected_witness :
    setConfigCallback standbyNode [⟨"range", .double 12⟩, ⟨"gain_percent", .double 20⟩]
      = some (standbyNode,
          { successful := false, reason := "Parameters should be set one by one" }) ∧
    setConfigCallback standbyNode []
      = some (standbyNode,
          { successful := false, reason := "Parameters should be set one by one" }) :=
  ⟨batch_rejected standbyNode _ (by decide), batch_rejected standbyNode [] (by decide)⟩

/-- C6: on a request sound_speed = v the candidate carries v when use_salinity
is false and 1400 <= v <= 1600, and the current speed of sound otherwise; in
both cases the handler reports success, and `currentConfig_` becomes the
answer of the device to that candidate. -/
theorem sound_speed_request (s : Node) (v : Double) :
    ∃ newConfig s',
      sendParamToSonar.newConfig s ⟨params.SOUND_SPEED.name, .double v⟩ = some newConfig ∧
      newConfig.speedOfSound =
        (if s.currentRosParameters_.use_salinity = false ∧ 1400 ≤ v ∧ v ≤ 1600 then v
         else s.currentConfig_.speedOfSound) ∧
      setConfigCallback s [⟨params.SOUND_SPEED.name, .double v⟩]
        = some (s', { successful := true, reason := "" }) ∧
      s'.currentConfig_ = s.sonar_driver_.request_ping_config newConfig ∧
      s'.log = s.log ++ Event.request_ping_config newConfig ::
        (if (s.sonar_driver_.request_ping_config newConfig).pingRate = pingRateStandby
            ∧ s.is_running_ = true then [Event.is_running false] else []) := by
  have hc : sendParamToSonar.newConfig s ⟨params.SOUND_SPEED.name, .double v⟩ = some
      { (if s.currentRosParameters_.use_salinity = false then
          if 1400 ≤ v ∧ v ≤ 1600 then { s.currentConfig_ with speedOfSound := v }
          else s.currentConfig_
         else s.currentConfig_) with
        flags := setMinimalFlags s (if s.currentRosParameters_.use_salinity = false then
          if 1400 ≤ v ∧ v ≤ 1600 then { s.currentConfig_ with speedOfSound := v }
          else s.currentConfig_
         else s.currentConfig_).flags } := by
    simp [sendParamToSonar.newConfig, Parameter.as_double, params.FREQUENCY_MODE.name,
      params.PING_RATE.name, params.NBEAMS.name, params.GAIN_ASSIT.name, params.RANGE.name,
      params.GAMMA_CORRECTION.name, params.GAIN_PERCENT.name, params.SOUND_SPEED.name,
      params.USE_SALINITY.name]
  have hu : updateLocalParameters s.currentRosParameters_ [⟨params.SOUND_SPEED.name, .double v⟩]
      = some { s.currentRosParameters_ with sound_speed := v } := by
    simp [updateLocalParameters, updateLocalParameter, Parameter.as_double,
      params.FREQUENCY_MODE.name,
      params.PING_RATE.name, params.NBEAMS.name, params.GAIN_ASSIT.name, params.RANGE.name,
      params.GAMMA_CORRECTION.name, params.GAIN_PERCENT.name, params.SOUND_SPEED.name]
  have hmem : (⟨params.SOUND_SPEED.name, .double v⟩ : Parameter).name
      ∈ dynamic_parameters_names_ := by
    simp [dynamic_parameters_names_]
  obtain ⟨s', -, -, h2, h3, h4⟩ := setConfigCallback_dynamic s
    ⟨params.SOUND_SPEED.name, .double v⟩ _ _ hmem
    (by simp [params.SOUND_SPEED.name, params.FREQUENCY_MODE.name]) hc hu
  refine ⟨_, _, hc, ?_, h4, h2, h3⟩
  by_cases hs : s.currentRosParameters_.use_salinity = false
  · by_cases hv : 1400 ≤ v ∧ v ≤ 1600
    · simp [hs, hv]
    · simp [hs, hv]
  · simp [hs]

/-- C7: on a request use_salinity = true the candidate carries the speed of
sound 0, on use_salinity = false it carries the current speed of sound. -/
theorem use_salinity_request (s : Node) (b : Bool) :
    ∃ newConfig,
      sendParamToSonar.newConfig s ⟨params.USE_SALINITY.name, .bool b⟩ = some newConfig ∧
      newConfig.speedOfSound = (if b = true then 0 else s.currentConfig_.speedOfSound) ∧
      (sendParamToSonar s ⟨params.USE_SALINITY.name, .bool b⟩
          { successful := true, reason := "" }).map (fun r => r.1.log)
        = some (s.log ++ Event.request_ping_config newConfig ::
            (if (s.sonar_driver_.request_ping_config newConfig).pingRate = pingRateStandby
                ∧ s.is_running_ = true then [Event.is_running false] else [])) := by
  have hc : sendParamToSonar.newConfig s ⟨params.USE_SALINITY.name, .bool b⟩ = some
      { (if b = true then { s.currentConfig_ with speedOfSound := 0 } else s.currentConfig_) with
        flags := setMinimalFlags s
          (if b = true then { s.currentConfig_ with speedOfSound := 0 }
           else s.currentConfig_).flags } := by
    simp [sendParamToSonar.newConfig, Parameter.as_bool, params.FREQUENCY_MODE.name,
      params.PING_RATE.name, params.NBEAMS.name, params.GAIN_ASSIT.name, params.RANGE.name,
      params.GAMMA_CORRECTION.name, params.GAIN_PERCENT.name, params.USE_SALINITY.name]
  refine ⟨_, hc, ?_, ?_⟩
  · cases b <;> simp
  · rw [sendParamToSonar_eq s _ _ _ hc]
    rfl

/-- C8: reconciliation of a mirror from a feedback always succeeds and leaves
frequency_mode, range, gain_percent, sound_speed and salinity equal to the
fields of the feedback, whatever the mirror held; after every exchange of
`sendParamToSonar` the mirror `currentSonarParameters_` agrees in these fields
with the answer of the device, which is also the new `currentConfig_`. -/
theorem reconciliation_round_trip (p : SonarParameters) (feedback : PingConfig) (s : Node)
    (param : Parameter) (result : SetParametersResult) :
    (∃ p', updateLocalParametersFromFeedback p feedback = some p' ∧
      p'.frequency_mode = feedback.masterMode ∧ p'.range = feedback.range ∧
      p'.gain_percent = feedback.gainPercent ∧ p'.sound_speed = feedback.speedOfSound ∧
      p'.salinity = feedback.salinity) ∧
    (∀ newConfig, sendParamToSonar.newConfig s param = some newConfig →
      ∃ r, sendParamToSonar s param result = some r ∧
        r.1.currentConfig_ = s.sonar_driver_.request_ping_config newConfig ∧
        r.1.currentSonarParameters_.frequency_mode = r.1.currentConfig_.masterMode ∧
        r.1.currentSonarParameters_.range = r.1.currentConfig_.range ∧
        r.1.currentSonarParameters_.gain_percent = r.1.currentConfig_.gainPercent ∧
        r.1.currentSonarParameters_.sound_speed = r.1.currentConfig_.speedOfSound ∧
        r.1.currentSonarParameters_.salinity = r.1.currentConfig_.salinity) := by
  refine ⟨⟨_, updateLocalParametersFromFeedback_eq p feedback, rfl, rfl, rfl, rfl, rfl⟩, ?_⟩
  intro newConfig h
  exact ⟨_, sendParamToSonar_eq s param result newConfig h, rfl, rfl, rfl, rfl, rfl, rfl⟩

/-- C9, the code as it is: with gain assist enabled in the mirrored device
parameters and a mirrored frequency mode different from 0, a request to change
frequency_mode sends nothing and leaves the state unchanged, but the returned
result has successful = true; only its reason tells of the refusal. -/
theorem gain_assist_refusal_reports_success (s : Node) (v : Int)
    (hga : s.currentSonarParameters_.gain_assist = true)
    (hfm : s.currentSonarParameters_.frequency_mode ≠ 0) :
    setConfigCallback s [⟨params.FREQUENCY_MODE.name, .integer v⟩]
      = some (s,
          { successful := true,
            reason := "You must set gain_assist to false before changing frequency TODO(to fix)." })
    := by
  simp [setConfigCallback, setConfigCallback.loop, setConfigCallback.body,
    dynamic_parameters_names_, params.FREQUENCY_MODE.name, hga, hfm]

/-- C9, witness, the failing input: gain assist is enabled in the mirror of
`gainAssistNode`, its frequency mode is 1, and the request is frequency_mode =
2. -/
theorem gain_assist_refusal_reports_success_witness :
    gainAssistNode.currentSonarParameters_.gain_assist = true ∧
    setConfigCallback gainAssistNode [⟨"frequency_mode", .integer 2⟩]
      = some (gainAssistNode,
          { successful := true,
            reason := "You must set gain_assist to false before changing frequency TODO(to fix)." })
    :=
  ⟨rfl, gain_assist_refusal_reports_success gainAssistNode 2 rfl (by decide)⟩

/-- C10, the code at the failing input: the request is range = 12 and the
device answers with range 5.  The result object owned by `sendParamToSonar` is
marked as rejected, but the result returned to the requester has successful =
true, and `currentRosParameters_` holds the requested 12 while `currentConfig_`
and `currentSonarParameters_` hold the 5 of the device. -/
theorem range_mismatch_reports_success :
    (sendParamToSonar shortRangeNode ⟨"range", .double 12⟩
        { successful := true, reason := "" }).map (fun r => r.2.successful) = some false ∧
    (setConfigCallback shortRangeNode [⟨"range", .double 12⟩]).map (fun r => r.2)
      = some { successful := true, reason := "" } ∧
    (setConfigCallback shortRangeNode [⟨"range", .double 12⟩]).map
        (fun r => (r.1.currentRosParameters_.range, r.1.currentSonarParameters_.range,
          r.1.currentConfig_.range))
      = some (12, 5, 5) := by
  refine ⟨by decide, by decide, by decide⟩

/-! ## Standby requests -/

/-- The effects of `disableRunMode` on any node: `standby()` is the first of
them, and `is_running_` is false afterwards. -/
theorem disableRunMode_log (s : Node) :
    (disableRunMode s).is_running_ = false ∧
    ∃ tail, (disableRunMode s).log = s.log ++ Event.standby :: tail := by
  refine ⟨rfl, ?_⟩
  simp only [disableRunMode, set_parameter_run, setConfigCallback_run]
  by_cases hc : (s.is_running_ = false ∨ false = true) ∧ (get_subscription_count
        { s with log := s.log ++ [Event.standby] } = 0
      ∨ s.is_overheating_ = true ∨ s.currentSonarParameters_.ping_rate = pingRateStandby)
  · rw [if_pos hc]
    exact ⟨[Event.is_running false], by simp⟩
  · rw [if_neg hc]
    exact ⟨[Event.is_running false, Event.set_parameter_run false, Event.is_running false],
      by simp⟩

/-- A reading handled while `is_running_` is false goes through
`disableRunMode`. -/
theorem publishPing_of_not_running (s : Node) (ping : PingMessage)
    (h : s.is_running_ = false) :
    (publishPing s ping).is_running_ = false ∧
    ∃ tail, (publishPing s ping).log = s.log ++ Event.standby :: tail := by
  have hd := disableRunMode_log (checkOverheating s ping.temperature)
  have h1 : (checkOverheating s ping.temperature).is_running_ = false := h
  have e : publishPing s ping = updateRosConfig
      { disableRunMode (checkOverheating s ping.temperature) with
        currentSonarParameters_ :=
          { (disableRunMode (checkOverheating s ping.temperature)).currentSonarParameters_ with
            frequency_mode := ping.master_mode
            range := ping.range
            gain_percent := ping.gain_percent
            sound_speed := ping.speed_of_sound_used } } := by
    unfold publishPing
    simp only [h1, if_true]
  rw [e]
  exact ⟨hd.1, hd.2⟩

/-- C11, as the code has it: after a request run = false `is_running_` is
false in every case.  The request is refused exactly when `is_running_` was
already false and one of the three run conditions fails, and a refused request
leaves the whole state as it was.  An accepted request changes nothing but
`is_running_`: the handler does not call `standby()`, its only effect is the
write to `is_running_`; the call of `standby()` is the first effect of the
next reading that `publishPing` handles. -/
theorem run_false_request (s : Node) (ping : PingMessage) :
    ∃ s' result, setConfigCallback s [⟨"run", .bool false⟩] = some (s', result) ∧
      s'.is_running_ = false ∧
      (result.successful = false ↔
        (s.is_running_ = false ∧ (get_subscription_count s = 0 ∨ s.is_overheating_ = true
          ∨ s.currentSonarParameters_.ping_rate = pingRateStandby))) ∧
      s' = (if result.successful = true then
              { s with is_running_ := false, log := s.log ++ [Event.is_running false] }
            else s) ∧
      s'.log = s.log ++ (if result.successful = true then [Event.is_running false] else []) ∧
      (publishPing s' ping).is_running_ = false ∧
      ∃ tail, (publishPing s' ping).log = s'.log ++ Event.standby :: tail := by
  rw [setConfigCallback_run]
  by_cases hc : (s.is_running_ = false ∨ false = true) ∧ (get_subscription_count s = 0
      ∨ s.is_overheating_ = true ∨ s.currentSonarParameters_.ping_rate = pingRateStandby)
  · rw [if_pos hc]
    have hr : s.is_running_ = false := by
      rcases hc.1 with h | h
      · exact h
      · exact absurd h (by decide)
    refine ⟨s, _, rfl, hr, ?_, by simp, by simp, publishPing_of_not_running s ping hr⟩
    simp only [true_iff]
    exact ⟨hr, hc.2⟩
  · rw [if_neg hc]
    refine ⟨_, _, rfl, rfl, ?_, by simp, by simp, publishPing_of_not_running _ ping rfl⟩
    simp only [Bool.true_eq_false, false_iff]
    intro h
    exact hc ⟨Or.inl h.1, h.2⟩

/-- C11, counterexample: `idleNode` is in standby and has no subscriber; the
request run = false is refused.  On `activeNode` the request is accepted, and
its only effect is the write to `is_running_`: `standby()` is not called. -/
theorem run_false_counterexample :
    (setConfigCallback idleNode [⟨"run", .bool false⟩]).map (fun r => r.2.successful)
      = some false ∧
    (setConfigCallback activeNode [⟨"run", .bool false⟩]).map
        (fun r => (r.2.successful, r.1.log))
      = some (true, [Event.is_running false]) := by
  refine ⟨by decide, by decide⟩

/-! ## Bits forced off by `setMinimalFlags` -/

theorem land_mod_256 (a : Nat) : (a % 256) &&& 16 = a &&& 16 := by
  apply Nat.eq_of_testBit_eq
  intro i
  have h : (256 : Nat) = 2 ^ 8 := by norm_num
  have h16 : (16 : Nat) = 2 ^ 4 := by norm_num
  rw [h, h16]
  simp only [Nat.testBit_land, Nat.testBit_mod_two_pow, Nat.testBit_two_pow]
  by_cases hi : 4 = i
  · subst hi
    simp
  · simp [hi]

set_option maxRecDepth 100000 in
/-- Without the gain assist step, the stamp of `setMinimalFlags` leaves bit 4
of a byte as it was. -/
theorem stamp_bytes_keep : ∀ f, f < 256 →
    (uint8_and_not (uint8_and_not ((f ||| (1 ||| 4 ||| 8)) % 256) 2) 128) &&& 16 = f &&& 16 := by
  unfold uint8_and_not
  decide

/-- C12, as the code has it: `setMinimalFlags` forces bit 0x02 and bit 0x80 off
for every input and every state.  The gain assist bit is forced off when the
mirrored frequency mode is the highest mode; for every other mirrored
frequency mode the gain assist bit of the input is kept. -/
theorem setMinimalFlags_forced_off (s : Node) (flags : Nat) :
    setMinimalFlags s flags &&& 0x02 = 0 ∧
    setMinimalFlags s flags &&& 0x80 = 0 ∧
    setMinimalFlags s flags &&& flagByte.GAIN_ASSIST =
      (if s.currentSonarParameters_.frequency_mode = params.FREQUENCY_MODE.max then 0
       else flags &&& flagByte.GAIN_ASSIST) := by
  have hb := stamp_bytes (flags % 256) (Nat.mod_lt _ (by norm_num))
    (decide (s.currentSonarParameters_.frequency_mode = params.FREQUENCY_MODE.max))
  rw [← setMinimalFlags_eq] at hb
  refine ⟨hb.2.2.2.1, hb.2.2.2.2.1, ?_⟩
  by_cases hf : s.currentSonarParameters_.frequency_mode = params.FREQUENCY_MODE.max
  · rw [if_pos hf]
    exact hb.2.2.2.2.2 (by simpa using hf)
  · rw [if_neg hf]
    have hk := stamp_bytes_keep (flags % 256) (Nat.mod_lt _ (by norm_num))
    rw [setMinimalFlags_eq, if_neg (by simpa using hf)]
    show _ &&& 16 = flags &&& 16
    rw [hk, land_mod_256]

/-- C12, counterexample: the mirrored frequency mode of `standbyNode` is 1; on
the input byte 0xFF the stamped byte still has the gain assist bit. -/
theorem setMinimalFlags_gain_assist_counterexample :
    standbyNode.currentSonarParameters_.frequency_mode = 1 ∧
    setMinimalFlags standbyNode 0xFF = 0x7D ∧
    setMinimalFlags standbyNode 0xFF &&& flagByte.GAIN_ASSIST = flagByte.GAIN_ASSIST := by
  refine ⟨rfl, by decide, by decide⟩

/-! ## Frame of a single-field change -/

/-- C14: after an exchange of `sendParamToSonar`, `currentConfig_` is the
feedback of the device; `is_running_` is false when the ping rate of the
feedback is the standby code and unchanged for every other ping rate. -/
theorem exchange_sets_config_and_run_state (s : Node) (param : Parameter)
    (result : SetParametersResult) (newConfig : PingConfig)
    (h : sendParamToSonar.newConfig s param = some newConfig) :
    ∃ r, sendParamToSonar s param result = some r ∧
      r.1.currentConfig_ = s.sonar_driver_.request_ping_config newConfig ∧
      r.1.is_running_ =
        (if (s.sonar_driver_.request_ping_config newConfig).pingRate = pingRateStandby
         then false else s.is_running_) :=
  ⟨_, sendParamToSonar_eq s param result newConfig h, rfl, rfl⟩

/-- C14, witness: a request range = 12 on `standbyRateNode`, which is running
and whose device answers with the standby ping rate. -/
theorem exchange_sets_config_and_run_state_witness :
    ∃ r, sendParamToSonar standbyRateNode ⟨"range", .double 12⟩
        { successful := true, reason := "" } = some r ∧
      r.1.currentConfig_ = { sampleConfig with range := 12, pingRate := 5 } ∧
      r.1.is_running_ = false :=
  exchange_sets_config_and_run_state standbyRateNode ⟨"range", .double 12⟩
    { successful := true, reason := "" } { sampleConfig with range := 12 } (by decide)

end OculusSonarNode
